import Mathlib

/-!
Verification of the splunk-data-sender connector (`splunk_data_sender/__init__.py`)
against its natural-language specification.

The Python module is shallowly embedded: pure helpers become Lean functions,
the mutation of the caller's record performed by `_get_splunk_attr` becomes
explicit state passing of the record value, external effects (the system
clock, the machine hostname, and the HTTP response produced by the remote
service) become explicit inputs, and raised Python exceptions become
`Except` error values.  Transport-only configuration (proxies, timeout,
retry count/backoff, debug flag) is omitted from the embedded `Config`
because no embedded function reads it.
-/

namespace SplunkDataSender

/-- JSON-like values, the payloads handled by the connector.  Numbers are
modelled as integers; the clock value passed to the formatter is an
arbitrary `JVal`, so nothing below depends on float formatting. -/
inductive JVal where
  | jnum (n : Int)
  | jstr (s : String)
  | jbool (b : Bool)
  | jarr (elems : List JVal)
  | jobj (fields : List (String × JVal))

/-- Lexicographic comparison of character lists by Unicode code point,
the order Python uses to compare strings (and hence to sort dict keys). -/
def charListLe : List Char → List Char → Bool
  | [], _ => true
  | _ :: _, [] => false
  | a :: as, b :: bs =>
      if a.toNat < b.toNat then true
      else if b.toNat < a.toNat then false
      else charListLe as bs

/-- Python's `<=` on strings: lexicographic by code point. -/
def strLe (a b : String) : Bool := charListLe a.data b.data

/-- Escaping of one character inside a JSON string literal (the two escapes
relevant to the strings handled here). -/
def escapeChar (c : Char) : String :=
  if c = '"' then "\\\"" else if c = '\\' then "\\\\" else String.singleton c

/-- A JSON string literal: quoted, escaped. -/
def qstr (s : String) : String :=
  "\"" ++ String.join (s.data.map escapeChar) ++ "\""

/-- Order on rendered fields used by `json.dumps(..., sort_keys=True)`:
compare the keys. -/
def fieldLe (p q : String × String) : Prop := strLe p.1 q.1 = true

instance : DecidableRel fieldLe :=
  fun p q => inferInstanceAs (Decidable (strLe p.1 q.1 = true))

mutual
/-- Model of `json.dumps(v, sort_keys=True)`: objects are rendered with
their fields sorted by key, with the default `", "` and `": "` separators. -/
def jdump : JVal → String
  | .jnum n => toString n
  | .jstr s => qstr s
  | .jbool b => if b then "true" else "false"
  | .jarr xs => "[" ++ String.intercalate ", " (jdumpList xs) ++ "]"
  | .jobj fs =>
      "\x7b" ++ String.intercalate ", "
        ((List.insertionSort fieldLe (jdumpFields fs)).map
          (fun p => qstr p.1 ++ ": " ++ p.2)) ++ "\x7d"
termination_by structural v => v

/-- Render every element of an array. -/
def jdumpList : List JVal → List String
  | [] => []
  | v :: vs => jdump v :: jdumpList vs
termination_by structural vs => vs

/-- Render every field of an object as a (key, rendered value) pair;
sorting by key afterwards agrees with sorting the fields first. -/
def jdumpFields : List (String × JVal) → List (String × String)
  | [] => []
  | (k, v) :: fs => (k, jdump v) :: jdumpFields fs
termination_by structural fs => fs
end

/-- The key order in which an object's fields are actually serialized. -/
def serializedKeys (fs : List (String × JVal)) : List String :=
  (List.insertionSort fieldLe (jdumpFields fs)).map Prod.fst

/-- A record handed to `send_data`: either an opaque string or a mapping
(Python `dict`, modelled as an association list in insertion order with
distinct keys). -/
inductive Record where
  | str (s : String)
  | map (m : List (String × JVal))

/-- `isinstance(record, dict)`. -/
def Record.isMap : Record → Bool
  | .map _ => true
  | .str _ => false

/-- Value of `record[k]` when the record is a mapping that carries `k`. -/
def Record.lookupKey : Record → String → Option JVal
  | .map m, k => List.lookup k m
  | .str _, _ => none

/-- The JSON value a record denotes when placed inside an envelope. -/
def recordToJVal : Record → JVal
  | .str s => .jstr s
  | .map m => .jobj m

/-- `del m[k]` on a dict with distinct keys: drop the entry with key `k`. -/
def delKey (k : String) (m : List (String × JVal)) : List (String × JVal) :=
  m.filter (fun p => p.1 != k)

/-- Python truthiness of an optional string (`None` and `""` are falsy). -/
def optTruthy : Option String → Bool
  | none => false
  | some s => s != ""

/-- Python `a or b` on an optional string with a string fallback. -/
def optOr (a : Option String) (b : String) : String :=
  match a with
  | some s => if s != "" then s else b
  | none => b

/-- The constructor arguments of `SplunkSender.__init__`, with the Python
default values. -/
structure InitArgs where
  endpoint : String
  token : String
  protocol : String := "https"
  port : String := "8088"
  source : String := "Splunk data sender"
  hostname : Option String := none
  sourceType : String := "generic_single_line"
  allowOverrides : Bool := false
  apiUrl : String := "collector/event"
  apiVersion : Option String := none
  index : String := "main"
  channel : Option String := none
  channelIn : String := "url"

/-- The connector's configuration after construction (the fields of `self`
read by the embedded operations). -/
structure Config where
  endpoint : String
  token : String
  protocol : String
  port : String
  source : String
  hostname : String
  sourceType : String
  allowOverrides : Bool
  apiUrl : String
  apiVersion : String
  index : String
  channel : Option String
  channelIn : String

/-- `SplunkSender.__init__`: field normalisation followed by the two
validation checks, in source order.  `sysHostname` stands for
`socket.gethostname()`; a raised `ValueError` becomes `.error` with the
source's message. -/
def splunkSenderInit (sysHostname : String) (a : InitArgs) : Except String Config :=
  let protocol := if a.protocol = "http" ∨ a.protocol = "https" then a.protocol else "https"
  let hostname := optOr a.hostname sysHostname
  let apiVersion := optOr a.apiVersion ""
  let channelIn := if a.channelIn = "url" ∨ a.channelIn = "header" then a.channelIn else "url"
  if apiVersion != "" ∧ a.apiUrl = "collector" then
    .error "/collector api does not support versioning"
  else if a.sourceType = "_json" ∧
      (a.apiUrl = "collector/raw" ∨ a.apiUrl = "collector/raw/" ++ apiVersion) then
    .error "Json input must be sent either to the /collector or /collector/event endpoints"
  else
    .ok { endpoint := a.endpoint, token := a.token, protocol := protocol, port := a.port,
          source := a.source, hostname := hostname, sourceType := a.sourceType,
          allowOverrides := a.allowOverrides, apiUrl := a.apiUrl, apiVersion := apiVersion,
          index := a.index, channel := a.channel, channelIn := channelIn }

/-- `SplunkSender._get_splunk_attr(obj, attr, default)`: reads the
attribute from the record when overriding is allowed and the record is a
mapping (consuming the key), otherwise yields the default.  Returns the
value together with the record as it stands afterwards. -/
def getSplunkAttr (allowOverrides : Bool) (obj : Record) (attr : String) (dflt : JVal) :
    JVal × Record :=
  match obj with
  | .map m =>
      if allowOverrides then
        ((List.lookup attr m).getD dflt, .map (delKey attr m))
      else (dflt, obj)
  | .str _ => (dflt, obj)

/-- The `params` dictionary built by `SplunkSender._format_record`, plus
the record as it stands after the attribute extractions.  `now` stands for
`time.time()`. -/
def formatRecordParams (cfg : Config) (now : JVal) (record : Record) :
    List (String × JVal) × Record :=
  let (t, r1) := getSplunkAttr cfg.allowOverrides record "time" now
  let (h, r2) := getSplunkAttr cfg.allowOverrides r1 "host" (.jstr cfg.hostname)
  let (src, r3) := getSplunkAttr cfg.allowOverrides r2 "source" (.jstr cfg.source)
  let (st, r4) := getSplunkAttr cfg.allowOverrides r3 "sourcetype" (.jstr cfg.sourceType)
  let (ix, r5) := getSplunkAttr cfg.allowOverrides r4 "index" (.jstr cfg.index)
  let (ev, r6) := getSplunkAttr cfg.allowOverrides r5 "event" (recordToJVal r5)
  let params := [("time", t), ("host", h), ("source", src), ("sourcetype", st),
                 ("index", ix), ("event", ev)]
  let params := if cfg.sourceType = "_json" ∧ record.isMap then
      params ++ [("fields", recordToJVal r6)]
    else params
  (params, r6)

/-- `SplunkSender._format_record`: the JSON serialisation of the params
dictionary, keys sorted. -/
def formatRecord (cfg : Config) (now : JVal) (record : Record) : String :=
  jdump (.jobj (formatRecordParams cfg now record).1)

/-- `SplunkSender._dispatch_splunk_res_code`'s lookup table: the row of
application codes for each tabulated HTTP status, `none` for any status
absent from the table (a `KeyError` in the source). -/
def splunkResTable (httpCode : Nat) : Option (List (Int × String)) :=
  if httpCode = 200 then some [(0, "Success")]
  else if httpCode = 400 then some
    [(5, "No data"), (6, "Invalid data format"), (7, "Incorrect index"),
     (10, "Data channel is missing"), (11, "Invalid data channel"),
     (12, "Event field is required"), (13, "Event field cannot be blank"),
     (14, "ACK is disabled"), (15, "Error in handling indexed fields"),
     (16, "Query string authorization is not enabled")]
  else if httpCode = 401 then some [(2, "Token is required"), (3, "Invalid authorization")]
  else if httpCode = 403 then some [(1, "Token disabled"), (4, "Invalid token")]
  else if httpCode = 500 then some [(8, "Internal server error")]
  else if httpCode = 503 then some [(9, "Server is busy")]
  else none

/-- `SplunkSender._dispatch_splunk_res_code`: row lookup with the generic
fallback message; `none` models the `KeyError` raised on an HTTP status
absent from the table. -/
def dispatchSplunkResCode (httpCode : Nat) (splunkCode : Int) : Option String :=
  (splunkResTable httpCode).map (fun row => (List.lookup splunkCode row).getD "Not a valid Splunk Error")

/-- `SplunkSender._dispatch_splunk_health_res`: 200 is healthy, everything
else unhealthy; the message comes from a three-entry map and is `None`
(here `none`) for any other status. -/
def dispatchSplunkHealthRes (httpCode : Nat) : Bool × Option String :=
  let message :=
    if httpCode = 200 then some "HEC is available and accepting input"
    else if httpCode = 400 then some "Invalid HEC token"
    else if httpCode = 503 then some "HEC is unhealthy, queues are full"
    else none
  if httpCode = 200 then (true, message) else (false, message)

/-- The parsed JSON body of an HTTP response, as far as the connector reads
it: the optional `code` entry, and whether the literal text contains the
substring `'acks'` (the source tests `'acks' in splunk_response.text`). -/
structure RespBody where
  code : Option Int
  acksInText : Bool
deriving DecidableEq

/-- Log lines emitted by `_check_splunk_response`, as far as the claims
observe them. -/
inductive LogEvent where
  | ackInfo
  | resInfo (msg : String)
  | resError (msg : String)
  | warn (msg : String)
deriving DecidableEq

/-- Exceptions escaping the response-handling code:
`jsonDecodeError` from `json.loads` on a non-JSON body, `keyError` from
the response-code table, `httpError` from `raise_for_status`, and
`valueError` from an unknown dispatch action. -/
inductive CheckErr where
  | jsonDecodeError
  | keyError
  | httpError (status : Nat)
  | valueError
deriving DecidableEq

/-- `requests.Response.raise_for_status`: raises `HTTPError` exactly for
4xx and 5xx status codes. -/
def raiseForStatus (status : Nat) : Except CheckErr Unit :=
  if 400 ≤ status ∧ status ≤ 599 then .error (.httpError status) else .ok ()

/-- `SplunkSender._check_splunk_response`: parse the body as JSON first
(`json.loads(splunk_response.text).get('code')`), succeed on 2xx, otherwise
decode the application code when one is present and finish with
`raise_for_status`.  `body = none` stands for a response text that is not
valid JSON.  Returns the emitted log lines and the outcome. -/
def checkSplunkResponse (status : Nat) (body : Option RespBody) :
    List LogEvent × Except CheckErr Unit :=
  match body with
  | none => ([], .error .jsonDecodeError)
  | some b =>
    if 200 ≤ status ∧ status ≤ 299 then
      ((if b.acksInText then [.ackInfo] else []), .ok ())
    else
      match b.code with
      | some c =>
        match dispatchSplunkResCode status c with
        | none => ([], .error .keyError)
        | some resMsg =>
          let msg := "Splunk response: -code: " ++ toString c ++ ", -HTTPcode: "
            ++ toString status ++ ", -message: " ++ resMsg
          if 200 ≤ status ∧ status ≤ 299 ∧ c = 0 then
            ([.resInfo msg], raiseForStatus status)
          else
            ([.resError msg], raiseForStatus status)
      | none => ([.warn "Response does not come directly from Splunk"], raiseForStatus status)

/-- `SplunkSender._dispatch_url_headers`: the `.get(action)` on the
per-action suffix dictionary, `none` for an unknown action. -/
def suffixUrl (cfg : Config) (action : String) : Option String :=
  if action = "get-health" then some "collector/health"
  else if action = "send-event" then some cfg.apiUrl
  else if action = "send-ack" then some "collector/ack"
  else none

/-- `SplunkSender._dispatch_url_headers`: builds the URL and headers for an
action, appending the API version for every action but `send-ack` and
attaching the channel (in the URL or as a header) for every action but
`"send-health"` — note that the comparison in the source is against the
string `"send-health"` while the health action is named `"get-health"`.
The `if not suffix_url` guard raises `ValueError` on any falsy suffix:
an unknown action, and also `send-event` when `api_url` is empty. -/
def dispatchUrlHeaders (cfg : Config) (action : String) :
    Except CheckErr (String × List (String × String)) :=
  let baseUrl := cfg.protocol ++ "://" ++ cfg.endpoint ++ ":" ++ cfg.port ++ "/services"
  match suffixUrl cfg action with
  | none => .error .valueError
  | some suffix =>
    if suffix = "" then .error .valueError
    else
    let url := baseUrl ++ "/" ++ suffix
    let url := if cfg.apiVersion != "" ∧ action ≠ "send-ack" then
        url ++ "/" ++ cfg.apiVersion
      else url
    let headers := [("Authorization", "Splunk " ++ cfg.token)]
    if optTruthy cfg.channel ∧ action ≠ "send-health" then
      if cfg.channelIn = "url" then
        .ok (url ++ "?channel=" ++ (cfg.channel.getD ""), headers)
      else
        .ok (url, headers ++ [("x-splunk-request-channel", cfg.channel.getD "")])
    else
      .ok (url, headers)

/-- `SplunkSender._send_to_splunk` / `_get_from_splunk`, response side: the
HTTP exchange itself is external, so the response's status and parsed body
are inputs; the URL/header dispatch and the response check are the
connector's own code. -/
def exchangeWithSplunk (cfg : Config) (action : String) (status : Nat)
    (body : Option RespBody) : Except CheckErr (Nat × Option RespBody) :=
  match dispatchUrlHeaders cfg action with
  | .error e => .error e
  | .ok _ =>
    match (checkSplunkResponse status body).2 with
    | .error e => .error e
    | .ok () => .ok (status, body)

/-- `SplunkSender.send_data`, response side: after the exchange, the
response text is parsed again (`json.loads(splunk_response.text)`) and
returned. -/
def sendData (cfg : Config) (status : Nat) (body : Option RespBody) :
    Except CheckErr RespBody :=
  match exchangeWithSplunk cfg "send-event" status body with
  | .error e => .error e
  | .ok (_, some b) => .ok b
  | .ok (_, none) => .error .jsonDecodeError

/-- `SplunkSender.send_acks`, response side. -/
def sendAcks (cfg : Config) (status : Nat) (body : Option RespBody) :
    Except CheckErr RespBody :=
  match exchangeWithSplunk cfg "send-ack" status body with
  | .error e => .error e
  | .ok (_, some b) => .ok b
  | .ok (_, none) => .error .jsonDecodeError

/-- `SplunkSender.get_health`: perform the exchange (whose
`_check_splunk_response` can raise), then map the raw HTTP status through
`_dispatch_splunk_health_res` and return the healthy flag. -/
def getHealth (cfg : Config) (status : Nat) (body : Option RespBody) :
    Except CheckErr Bool :=
  match exchangeWithSplunk cfg "get-health" status body with
  | .error e => .error e
  | .ok _ => .ok (dispatchSplunkHealthRes status).1

/-- The (HTTP status, application code, message) rows of the spec's lookup
table, as written in the spec. -/
def specResRows : List (Nat × Int × String) :=
  [(200, 0, "Success"),
   (400, 5, "No data"), (400, 6, "Invalid data format"), (400, 7, "Incorrect index"),
   (400, 10, "Data channel is missing"), (400, 11, "Invalid data channel"),
   (400, 12, "Event field is required"), (400, 13, "Event field cannot be blank"),
   (400, 14, "ACK is disabled"), (400, 15, "Error in handling indexed fields"),
   (400, 16, "Query string authorization is not enabled"),
   (401, 2, "Token is required"), (401, 3, "Invalid authorization"),
   (403, 1, "Token disabled"), (403, 4, "Invalid token"),
   (500, 8, "Internal server error"), (503, 9, "Server is busy")]

/-- The HTTP statuses carrying a row in the spec's lookup table. -/
def tabulatedStatuses : List Nat := [200, 400, 401, 403, 500, 503]

/-- The application codes tabulated for a given HTTP status. -/
def rowCodesOf (h : Nat) : List Int :=
  (specResRows.filter (fun r => r.1 == h)).map (fun r => r.2.1)

/-- A connector configuration with a channel id and an API version, the
channel placed in the URL. -/
def cfgChanUrl : Config :=
  { endpoint := "splunk", token := "tok", protocol := "https", port := "8088",
    source := "src", hostname := "host", sourceType := "generic_single_line",
    allowOverrides := false, apiUrl := "collector/event", apiVersion := "1",
    index := "main", channel := some "CH", channelIn := "url" }

/-- The same configuration with the channel placed in the header. -/
def cfgChanHeader : Config := { cfgChanUrl with channelIn := "header" }

/-- Number of fields of an object value: a discriminator telling object
values apart. -/
def JVal.objLen : JVal → Nat
  | .jobj l => l.length
  | _ => 0

/-- A connector configuration with JSON sourcetype and overrides allowed. -/
def cfgJsonOv : Config :=
  { endpoint := "splunk", token := "tok", protocol := "https", port := "8088",
    source := "src", hostname := "host", sourceType := "_json",
    allowOverrides := true, apiUrl := "collector/event", apiVersion := "",
    index := "main", channel := none, channelIn := "url" }

theorem charListLe_total : ∀ as bs : List Char,
    charListLe as bs = true ∨ charListLe bs as = true
  | [], _ => Or.inl rfl
  | _ :: _, [] => Or.inr rfl
  | a :: as, b :: bs => by
    rcases Nat.lt_trichotomy a.toNat b.toNat with h | h | h
    · left; simp [charListLe, h]
    · have h1 : ¬ a.toNat < b.toNat := by omega
      have h2 : ¬ b.toNat < a.toNat := by omega
      simpa [charListLe, h1, h2] using charListLe_total as bs
    · right; simp [charListLe, h]

theorem charListLe_trans : ∀ as bs cs : List Char,
    charListLe as bs = true → charListLe bs cs = true → charListLe as cs = true
  | [], _, _, _, _ => rfl
  | _ :: _, [], _, h, _ => by simp [charListLe] at h
  | _ :: _, _ :: _, [], _, h => by simp [charListLe] at h
  | a :: as, b :: bs, c :: cs, h1, h2 => by
    simp only [charListLe] at h1 h2 ⊢
    rcases Nat.lt_trichotomy a.toNat b.toNat with hab | hab | hab <;>
      rcases Nat.lt_trichotomy b.toNat c.toNat with hbc | hbc | hbc <;>
      simp_all [show ∀ x : Nat, ¬ x < x from fun x => Nat.lt_irrefl x] <;>
      first
        | omega
        | (exact charListLe_trans as bs cs h1 h2)

instance : IsTotal (String × String) fieldLe :=
  ⟨fun p q => by
    rcases charListLe_total p.1.data q.1.data with h | h
    · exact Or.inl h
    · exact Or.inr h⟩

instance : IsTrans (String × String) fieldLe :=
  ⟨fun _ _ _ h₁ h₂ => charListLe_trans _ _ _ h₁ h₂⟩

/-- Keys of the serialized object come out sorted in Python's string order. -/
theorem serializedKeys_sorted (fs : List (String × JVal)) :
    List.Sorted (fun k₁ k₂ => strLe k₁ k₂ = true) (serializedKeys fs) := by
  have h := List.sorted_insertionSort fieldLe (jdumpFields fs)
  exact List.Pairwise.map Prod.fst (fun _ _ hab => hab) h

theorem lookup_delKey_ne (k k' : String) (m : List (String × JVal)) (h : k ≠ k') :
    List.lookup k (delKey k' m) = List.lookup k m := by
  induction m with
  | nil => rfl
  | cons p ps ih =>
    obtain ⟨a, v⟩ := p
    by_cases ha : a = k'
    · subst ha
      have hk : (k == a) = false := by simp [h]
      simp [delKey, List.filter_cons, List.lookup, hk] at ih ⊢
      simpa [delKey] using ih
    · by_cases hk : k = a
      · subst hk
        simp [delKey, List.filter_cons, List.lookup, ha]
      · have hk' : (k == a) = false := by simp [hk]
        simp [delKey, List.filter_cons, List.lookup, ha, hk'] at ih ⊢
        simpa [delKey] using ih

theorem lookup_delKey_self (k : String) (m : List (String × JVal)) :
    List.lookup k (delKey k m) = none := by
  induction m with
  | nil => rfl
  | cons p ps ih =>
    obtain ⟨a, v⟩ := p
    by_cases ha : a = k
    · simpa [delKey, List.filter_cons, ha] using ih
    · have hk : (k == a) = false := by simp [Ne.symm ha]
      simpa [delKey, List.filter_cons, ha, List.lookup, hk] using ih

theorem delKey_of_lookup_none (k : String) (m : List (String × JVal))
    (h : List.lookup k m = none) : delKey k m = m := by
  induction m with
  | nil => rfl
  | cons p ps ih =>
    obtain ⟨a, v⟩ := p
    by_cases ha : k = a
    · subst ha
      simp [List.lookup] at h
    · have hk : (k == a) = false := by simp [ha]
      simp only [List.lookup_cons, hk] at h
      have h2 := ih h
      rw [delKey, List.filter_cons]
      have hne : ((a, v).1 != k) = true := by simp [bne_iff_ne, Ne.symm ha]
      rw [if_pos hne]
      rw [delKey] at h2
      rw [h2]

/-- C6: constructing the connector with a non-empty API version together
with the bare `collector` path always raises a configuration error. -/
theorem init_version_bare_collector_fails (sysHostname : String) (a : InitArgs)
    (v : String) (hv : a.apiVersion = some v) (hne : v ≠ "")
    (hurl : a.apiUrl = "collector") :
    splunkSenderInit sysHostname a = .error "/collector api does not support versioning" := by
  unfold splunkSenderInit
  have hva : optOr a.apiVersion "" = v := by simp [optOr, hv, hne]
  rw [if_pos]
  exact ⟨by simp [hva, hne], hurl⟩

theorem init_version_bare_collector_fails_witness :
    splunkSenderInit "h"
      { endpoint := "e", token := "t", apiVersion := some "1", apiUrl := "collector" }
      = .error "/collector api does not support versioning" :=
  init_version_bare_collector_fails "h" _ "1" rfl (by decide) rfl

/-- C5 counterexample: with JSON sourcetype, a configured version of "1",
and the raw path carrying a different version segment ("collector/raw/2"),
construction succeeds instead of raising. -/
theorem init_json_raw_other_version_succeeds :
    (splunkSenderInit "h"
      { endpoint := "e", token := "t", sourceType := "_json",
        apiVersion := some "1", apiUrl := "collector/raw/2" }).isOk = true := rfl

/-- C5 (amended): with JSON sourcetype, construction raises exactly when the
API path is the bare raw path or the raw path carrying the configured
version segment. -/
theorem init_json_raw_fails (sysHostname : String) (a : InitArgs)
    (hst : a.sourceType = "_json")
    (hurl : a.apiUrl = "collector/raw" ∨ a.apiUrl = "collector/raw/" ++ optOr a.apiVersion "") :
    splunkSenderInit sysHostname a
      = .error "Json input must be sent either to the /collector or /collector/event endpoints" := by
  have hne : a.apiUrl ≠ "collector" := by
    rcases hurl with h | h <;> rw [h]
    · decide
    · intro hc
      have hlen := congrArg String.length hc
      rw [String.length_append] at hlen
      have h14 : ("collector/raw/" : String).length = 14 := rfl
      have h9 : ("collector" : String).length = 9 := rfl
      rw [h14, h9] at hlen
      omega
  unfold splunkSenderInit
  rw [if_neg, if_pos]
  · exact ⟨hst, hurl⟩
  · rintro ⟨-, hc⟩
    exact hne hc

theorem init_json_raw_fails_witness :
    splunkSenderInit "h"
      { endpoint := "e", token := "t", sourceType := "_json", apiUrl := "collector/raw" }
      = .error "Json input must be sent either to the /collector or /collector/event endpoints" :=
  init_json_raw_fails "h" _ rfl (Or.inl rfl)

/-- C8: the response-code lookup is total on tabulated statuses and
fail-fast elsewhere. -/
theorem dispatch_res_code_matches_table (h : Nat) (c : Int) :
    (∀ r ∈ specResRows, dispatchSplunkResCode r.1 r.2.1 = some r.2.2) ∧
    (h ∈ tabulatedStatuses → c ∉ rowCodesOf h →
      dispatchSplunkResCode h c = some "Not a valid Splunk Error") ∧
    (h ∉ tabulatedStatuses → dispatchSplunkResCode h c = none) := by
  refine ⟨by decide, ?_, ?_⟩
  · intro hh hc
    fin_cases hh <;>
      simp_all [rowCodesOf, specResRows, dispatchSplunkResCode, splunkResTable, List.lookup,
        beq_false_of_ne]
  · intro hh
    have h200 : h ≠ 200 := fun e => hh (by rw [e]; decide)
    have h400 : h ≠ 400 := fun e => hh (by rw [e]; decide)
    have h401 : h ≠ 401 := fun e => hh (by rw [e]; decide)
    have h403 : h ≠ 403 := fun e => hh (by rw [e]; decide)
    have h500 : h ≠ 500 := fun e => hh (by rw [e]; decide)
    have h503 : h ≠ 503 := fun e => hh (by rw [e]; decide)
    simp [dispatchSplunkResCode, splunkResTable, h200, h400, h401, h403, h500, h503]

theorem dispatch_res_code_matches_table_witness :
    dispatchSplunkResCode 400 7 = some "Incorrect index" ∧
    dispatchSplunkResCode 400 99 = some "Not a valid Splunk Error" ∧
    dispatchSplunkResCode 404 0 = none :=
  ⟨(dispatch_res_code_matches_table 400 7).1 (400, 7, "Incorrect index") (by decide),
   (dispatch_res_code_matches_table 400 99).2.1 (by decide) (by decide),
   (dispatch_res_code_matches_table 404 0).2.2 (by decide)⟩

/-- C1: on a configuration with a channel and an API version, `send-ack`
resolves without a version segment as claimed, but `get-health` does carry
the channel — as a `?channel=` query parameter under the url placement and
as an `x-splunk-request-channel` header under the header placement —
because the source compares the action against `"send-health"` while the
health action is named `"get-health"`. -/
theorem dispatch_health_carries_channel :
    dispatchUrlHeaders cfgChanUrl "send-ack"
      = .ok ("https://splunk:8088/services/collector/ack?channel=CH",
             [("Authorization", "Splunk tok")]) ∧
    dispatchUrlHeaders cfgChanUrl "get-health"
      = .ok ("https://splunk:8088/services/collector/health/1?channel=CH",
             [("Authorization", "Splunk tok")]) ∧
    dispatchUrlHeaders cfgChanHeader "get-health"
      = .ok ("https://splunk:8088/services/collector/health/1",
             [("Authorization", "Splunk tok"), ("x-splunk-request-channel", "CH")]) :=
  ⟨rfl, rfl, rfl⟩

/-- C9: on a 503 response with application code 9, `get_health` raises the
`HTTPError` produced inside `_check_splunk_response` instead of returning
`False`; the 503 row of `_dispatch_splunk_health_res` (and its 400 row) is
unreachable, and statuses outside its three-entry map carry no message at
all.  Only the 200 → healthy half of the claim holds. -/
theorem get_health_raises_instead_of_false :
    getHealth cfgChanUrl 503 (some { code := some 9, acksInText := false })
      = .error (.httpError 503) ∧
    getHealth cfgChanUrl 200 (some { code := some 17, acksInText := false })
      = .ok true ∧
    dispatchSplunkHealthRes 503 = (false, some "HEC is unhealthy, queues are full") ∧
    dispatchSplunkHealthRes 404 = (false, none) :=
  ⟨rfl, rfl, rfl, rfl⟩

theorem splunkResTable_statuses (s : Nat) (row : List (Int × String))
    (h : splunkResTable s = some row) :
    s = 200 ∨ s = 400 ∨ s = 401 ∨ s = 403 ∨ s = 500 ∨ s = 503 := by
  by_contra hc
  push_neg at hc
  obtain ⟨h1, h2, h3, h4, h5, h6⟩ := hc
  simp [splunkResTable, h1, h2, h3, h4, h5, h6] at h

/-- C2 (amended): for a non-2xx response whose body parses as JSON, the
interpreter raises whenever the body carries an application code (a table
`KeyError` for untabulated statuses, an `HTTPError` otherwise); when the
body carries no code it first logs the "Response does not come directly
from Splunk" warning and raises exactly when the status is 4xx/5xx — a
codeless 1xx/3xx response returns without raising. -/
theorem check_response_non2xx (status : Nat) (b : RespBody)
    (h : ¬ (200 ≤ status ∧ status ≤ 299)) :
    (∀ c, b.code = some c → ∃ e, (checkSplunkResponse status (some b)).2 = Except.error e) ∧
    (b.code = none →
      (checkSplunkResponse status (some b)).1
        = [.warn "Response does not come directly from Splunk"] ∧
      (400 ≤ status → status ≤ 599 →
        (checkSplunkResponse status (some b)).2 = Except.error (.httpError status))) := by
  constructor
  · intro c hc
    rcases hrow : splunkResTable status with _ | row
    · exact ⟨.keyError, by simp [checkSplunkResponse, h, hc, dispatchSplunkResCode, hrow]⟩
    · have hs := splunkResTable_statuses status row hrow
      have hr : 400 ≤ status ∧ status ≤ 599 := by
        rcases hs with e | e | e | e | e | e <;> subst e <;>
          first
            | (exact absurd (by omega : 200 ≤ 200 ∧ 200 ≤ 299) h)
            | omega
      refine ⟨.httpError status, ?_⟩
      simp [checkSplunkResponse, h, hc, dispatchSplunkResCode, hrow, raiseForStatus, hr,
        apply_ite]
  · intro hc
    refine ⟨by simp [checkSplunkResponse, h, hc], fun h4 h5 => ?_⟩
    simp [checkSplunkResponse, h, hc, raiseForStatus, h4, h5]

theorem check_response_non2xx_witness :
    (∃ e, (checkSplunkResponse 400 (some { code := some 7, acksInText := false })).2
        = Except.error e) ∧
    (checkSplunkResponse 404 (some { code := none, acksInText := false })).1
      = [.warn "Response does not come directly from Splunk"] ∧
    (checkSplunkResponse 404 (some { code := none, acksInText := false })).2
      = Except.error (.httpError 404) :=
  ⟨(check_response_non2xx 400 ⟨some 7, false⟩ (by omega)).1 7 rfl,
   ((check_response_non2xx 404 ⟨none, false⟩ (by omega)).2 rfl).1,
   ((check_response_non2xx 404 ⟨none, false⟩ (by omega)).2 rfl).2 (by omega) (by omega)⟩

/-- C2 counterexample: HTTP 302 with a JSON body carrying no application
code is not in the 2xx range, yet `_check_splunk_response` only logs the
warning and returns without raising. -/
theorem check_response_302_no_raise :
    checkSplunkResponse 302 (some { code := none, acksInText := false })
      = ([.warn "Response does not come directly from Splunk"], Except.ok ()) := rfl

theorem dispatchUrlHeaders_known_action_ok (cfg : Config) (action : String)
    (h : action = "get-health" ∨ (action = "send-event" ∧ cfg.apiUrl ≠ "")
      ∨ action = "send-ack") :
    ∃ u hs, dispatchUrlHeaders cfg action = .ok (u, hs) := by
  rcases h with h | ⟨h, hne⟩ | h
  · subst h
    simp only [dispatchUrlHeaders, suffixUrl]
    simp
    split <;> first | exact ⟨_, _, rfl⟩ | (split <;> exact ⟨_, _, rfl⟩)
  · subst h
    simp only [dispatchUrlHeaders, suffixUrl]
    simp [hne]
    split <;> first | exact ⟨_, _, rfl⟩ | (split <;> exact ⟨_, _, rfl⟩)
  · subst h
    simp only [dispatchUrlHeaders, suffixUrl]
    simp
    split <;> first | exact ⟨_, _, rfl⟩ | (split <;> exact ⟨_, _, rfl⟩)

theorem dispatchUrlHeaders_send_event_empty (cfg : Config) (h : cfg.apiUrl = "") :
    dispatchUrlHeaders cfg "send-event" = .error .valueError := by
  simp [dispatchUrlHeaders, suffixUrl, h]

/-- C10: when the response body text is not valid JSON (`body = none`),
every public operation raises for every HTTP status — in particular also
in the 2xx success range — and the caller never receives the response.
`send_acks` and `get_health` always raise the JSON decode error, and so
does `send_data` whenever its API path is non-empty (an empty `api_url`
makes the URL dispatch raise `ValueError` first, before any response
exists, because `_check_splunk_response` parses the body only after the
dispatch). -/
theorem invalid_json_body_always_raises (cfg : Config) (status : Nat) :
    (∃ e, sendData cfg status none = .error e) ∧
    sendAcks cfg status none = .error .jsonDecodeError ∧
    getHealth cfg status none = .error .jsonDecodeError ∧
    (cfg.apiUrl ≠ "" → sendData cfg status none = .error .jsonDecodeError) := by
  obtain ⟨u2, hd2, he2⟩ := dispatchUrlHeaders_known_action_ok cfg "send-ack" (Or.inr (Or.inr rfl))
  obtain ⟨u3, hd3, he3⟩ := dispatchUrlHeaders_known_action_ok cfg "get-health" (Or.inl rfl)
  have hsd : cfg.apiUrl ≠ "" → sendData cfg status none = .error .jsonDecodeError := by
    intro hne
    obtain ⟨u1, hd1, he1⟩ :=
      dispatchUrlHeaders_known_action_ok cfg "send-event" (Or.inr (Or.inl ⟨rfl, hne⟩))
    simp [sendData, exchangeWithSplunk, he1, checkSplunkResponse]
  refine ⟨?_, ?_, ?_, hsd⟩
  · by_cases hne : cfg.apiUrl = ""
    · exact ⟨.valueError, by
        simp [sendData, exchangeWithSplunk, dispatchUrlHeaders_send_event_empty cfg hne]⟩
    · exact ⟨.jsonDecodeError, hsd hne⟩
  · simp [sendAcks, exchangeWithSplunk, he2, checkSplunkResponse]
  · simp [getHealth, exchangeWithSplunk, he3, checkSplunkResponse]

theorem invalid_json_body_always_raises_witness :
    (∃ e, sendData cfgChanUrl 200 none = .error e) ∧
    sendAcks cfgChanUrl 200 none = .error .jsonDecodeError ∧
    getHealth cfgChanUrl 200 none = .error .jsonDecodeError ∧
    sendData cfgChanUrl 200 none = .error .jsonDecodeError :=
  ⟨(invalid_json_body_always_raises cfgChanUrl 200).1,
   (invalid_json_body_always_raises cfgChanUrl 200).2.1,
   (invalid_json_body_always_raises cfgChanUrl 200).2.2.1,
   (invalid_json_body_always_raises cfgChanUrl 200).2.2.2 (by decide)⟩

/-- C3 counterexample: with overrides allowed, a `_json`-sourcetyped
mapping record containing a recognized key (`source`) gets its `fields`
value from the record after that key was consumed — not the verbatim
original mapping the caller supplied. -/
theorem format_fields_not_verbatim :
    List.lookup "fields"
        (formatRecordParams cfgJsonOv (.jnum 5)
          (.map [("source", .jstr "x"), ("k", .jstr "v")])).1
      = some (.jobj [("k", .jstr "v")]) ∧
    JVal.jobj [("k", .jstr "v")] ≠ .jobj [("source", .jstr "x"), ("k", .jstr "v")] :=
  ⟨rfl, fun h => by simpa [JVal.objLen] using congrArg JVal.objLen h⟩

/-- C3 (amended): with JSON sourcetype and a mapping record, the
envelope's `fields` value is the record as it stands after override
extraction — the verbatim original mapping when overrides are disallowed,
the original minus the consumed recognized keys when they are allowed. -/
theorem format_fields_is_residual_record (cfg : Config) (now : JVal)
    (m : List (String × JVal)) (hjson : cfg.sourceType = "_json") :
    List.lookup "fields" (formatRecordParams cfg now (.map m)).1
      = some (recordToJVal (formatRecordParams cfg now (.map m)).2) ∧
    (cfg.allowOverrides = false → (formatRecordParams cfg now (.map m)).2 = .map m) := by
  cases habo : cfg.allowOverrides <;>
    simp [formatRecordParams, getSplunkAttr, hjson, habo, Record.isMap, List.lookup]

theorem format_fields_is_residual_record_witness :
    List.lookup "fields"
        (formatRecordParams cfgJsonOv (.jnum 5) (.map [("k", .jstr "v")])).1
      = some (recordToJVal (formatRecordParams cfgJsonOv (.jnum 5)
          (.map [("k", .jstr "v")])).2) ∧
    (cfgJsonOv.allowOverrides = false →
      (formatRecordParams cfgJsonOv (.jnum 5) (.map [("k", .jstr "v")])).2
        = .map [("k", .jstr "v")]) :=
  format_fields_is_residual_record cfgJsonOv (.jnum 5) [("k", .jstr "v")] rfl

/-- C4: for a mapping record carrying a `source` key — with overrides
allowed, the envelope's `source` is the record's own value, the key is
gone from the record after extraction, and (when the record carries no
explicit `event` key) the `event` field holds exactly that residual
record; with overrides disallowed, the envelope's `source` is the
configured default and the untouched record, `source` key included, is the
`event` value. -/
theorem format_source_override (cfg : Config) (now : JVal)
    (m : List (String × JVal)) (v : JVal) (hsrc : List.lookup "source" m = some v) :
    (cfg.allowOverrides = true →
      List.lookup "source" (formatRecordParams cfg now (.map m)).1 = some v ∧
      Record.lookupKey (formatRecordParams cfg now (.map m)).2 "source" = none ∧
      (List.lookup "event" m = none →
        List.lookup "event" (formatRecordParams cfg now (.map m)).1
          = some (recordToJVal (formatRecordParams cfg now (.map m)).2))) ∧
    (cfg.allowOverrides = false →
      List.lookup "source" (formatRecordParams cfg now (.map m)).1 = some (.jstr cfg.source) ∧
      List.lookup "event" (formatRecordParams cfg now (.map m)).1 = some (.jobj m)) := by
  constructor
  · intro habo
    have h2 : List.lookup "source" (delKey "host" (delKey "time" m)) = some v := by
      rw [lookup_delKey_ne _ _ _ (by decide), lookup_delKey_ne _ _ _ (by decide), hsrc]
    have h6 : List.lookup "source"
        (delKey "event" (delKey "index" (delKey "sourcetype"
          (delKey "source" (delKey "host" (delKey "time" m)))))) = none := by
      rw [lookup_delKey_ne _ _ _ (by decide), lookup_delKey_ne _ _ _ (by decide),
        lookup_delKey_ne _ _ _ (by decide)]
      exact lookup_delKey_self _ _
    have h5 : List.lookup "event"
        (delKey "index" (delKey "sourcetype"
          (delKey "source" (delKey "host" (delKey "time" m)))))
        = List.lookup "event" m := by
      rw [lookup_delKey_ne _ _ _ (by decide), lookup_delKey_ne _ _ _ (by decide),
        lookup_delKey_ne _ _ _ (by decide), lookup_delKey_ne _ _ _ (by decide),
        lookup_delKey_ne _ _ _ (by decide)]
    refine ⟨?_, ?_, ?_⟩
    · simp [formatRecordParams, getSplunkAttr, habo, Record.isMap, h2]
      split <;> simp [List.lookup]
    · simp [formatRecordParams, getSplunkAttr, habo, Record.lookupKey, h6]
    · intro hev
      have hev5 : List.lookup "event"
          (delKey "index" (delKey "sourcetype"
            (delKey "source" (delKey "host" (delKey "time" m))))) = none := h5.trans hev
      simp [formatRecordParams, getSplunkAttr, habo, Record.isMap, recordToJVal, hev5,
        delKey_of_lookup_none _ _ hev5]
      split <;> simp [List.lookup]
  · intro habo
    simp [formatRecordParams, getSplunkAttr, habo, recordToJVal, Record.isMap]
    constructor <;> (split <;> simp [List.lookup])

theorem format_source_override_witness :
    (List.lookup "source"
        (formatRecordParams cfgJsonOv (.jnum 5)
          (.map [("source", .jstr "x"), ("k", .jstr "v")])).1 = some (.jstr "x")) ∧
    (List.lookup "source"
        (formatRecordParams cfgChanUrl (.jnum 5)
          (.map [("source", .jstr "x"), ("k", .jstr "v")])).1
      = some (.jstr cfgChanUrl.source)) :=
  ⟨((format_source_override cfgJsonOv (.jnum 5)
      [("source", .jstr "x"), ("k", .jstr "v")] (.jstr "x") rfl).1 rfl).1,
   ((format_source_override cfgChanUrl (.jnum 5)
      [("source", .jstr "x"), ("k", .jstr "v")] (.jstr "x") rfl).2 rfl).1⟩

/-- C7 counterexample: two calls on the same connector with the identical
record but different clock readings produce different JSON bytes — the
`time` field defaults to `time.time()` read at call time, so byte
identity of two calls is not unconditional. -/
theorem format_record_clock_dependent :
    formatRecord cfgChanUrl (.jnum 1) (.str "hello")
      ≠ formatRecord cfgChanUrl (.jnum 2) (.str "hello") := by decide

/-- C7 (amended): formatting is a pure function of the configuration, the
clock reading and the record — two calls observing the same clock value
yield byte-identical JSON — and the envelope's keys are serialized in
sorted (Python string) order.  Calls observing different clock values may
differ. -/
theorem format_record_deterministic_sorted (cfg : Config) (now now' : JVal)
    (record : Record) (hclock : now' = now) :
    formatRecord cfg now' record = formatRecord cfg now record ∧
    List.Sorted (fun k₁ k₂ => strLe k₁ k₂ = true)
      (serializedKeys (formatRecordParams cfg now record).1) :=
  ⟨by rw [hclock], serializedKeys_sorted _⟩

theorem format_record_deterministic_sorted_witness :
    formatRecord cfgChanUrl (.jnum 1) (.str "hello")
      = formatRecord cfgChanUrl (.jnum 1) (.str "hello") ∧
    List.Sorted (fun k₁ k₂ => strLe k₁ k₂ = true)
      (serializedKeys (formatRecordParams cfgChanUrl (.jnum 1) (.str "hello")).1) :=
  format_record_deterministic_sorted cfgChanUrl (.jnum 1) (.jnum 1) (.str "hello") rfl

end SplunkDataSender
